import Mathlib

/-!
# Verification of the personal-journal CRUD service

A shallow embedding of `src/app.py` and `src/setup_db.py`: a Flask server
exposing four JSON endpoints (list / create / update / delete) over a single
`journal_entries` table, together with a scoped database-connection source
(pooled or ad-hoc) and environment-driven configuration.

Modelling conventions:
* Timestamps are `Nat` ticks; the current time `now` is passed explicitly to
  the handlers (it models the database's `CURRENT_TIMESTAMP` / column default).
* `datetime.isoformat()` (a Python standard-library call, not repository code)
  is modelled by the injective rendering `isoformat : Nat → String`.
* The database table is a list of rows plus the `SERIAL` counter; each SQL
  statement of the source becomes the corresponding pure state transition.
* Python exceptions are values of `PyExn`.  A handler body returns an
  `Except PyExn HttpResponse` together with its side effects; the `try/except
  Exception` wrapper of each handler is `runHandler`.  Database faults are
  injected through an `Option PyExn` argument that fires at the first SQL
  statement of the handler body.
* A create/update request body is `ReqBody`: either `malformed` (the body is
  missing or not well-formed JSON, in which case `request.get_json()` raises)
  or a parsed JSON object whose `title`/`content` fields are absent or strings.
-/

/-- A stored row of the `journal_entries` table (src/app.py init_db, lines 65-73). -/
structure Entry where
  id : Nat
  title : String
  content : String
  created_at : Nat
  updated_at : Nat
deriving Repr, DecidableEq

/-- The database state: the rows of `journal_entries` in insertion order,
and the next value of the `SERIAL` id counter. -/
structure DBState where
  rows : List Entry
  nextId : Nat
deriving Repr, DecidableEq

/-- Models Python's `datetime.isoformat()` (standard library): an injective
rendering of a timestamp as a string.  The source calls it on `created_at`
and `updated_at` before putting rows into JSON responses. -/
def isoformat (t : Nat) : String :=
  toString t

/-- A row as it appears in a JSON response: timestamps serialized to strings
via `isoformat` (src/app.py lines 118-120, 151-152, 190-191). -/
structure SerializedEntry where
  id : Nat
  title : String
  content : String
  created_at : String
  updated_at : String
deriving Repr, DecidableEq

/-- Serialize a stored row for a JSON response. -/
def serializeEntry (e : Entry) : SerializedEntry :=
  { id := e.id, title := e.title, content := e.content
  , created_at := isoformat e.created_at, updated_at := isoformat e.updated_at }

/-- The JSON bodies the four handlers produce:
`{'success': True, 'entries': [...]}`, `{'success': True, 'entry': {...}}`,
`{'success': True, 'message': ...}` and `{'success': False, 'error': ...}`. -/
inductive ApiBody where
  | entries (es : List SerializedEntry)
  | entry (e : SerializedEntry)
  | message (m : String)
  | err (msg : String)
deriving Repr, DecidableEq

/-- The `success` field of a response body: `True` on the three success
shapes, `False` on the error shape. -/
def ApiBody.success : ApiBody → Bool
  | .err _ => false
  | _ => true

/-- An HTTP response: status code and JSON body. -/
structure HttpResponse where
  status : Nat
  body : ApiBody
deriving Repr, DecidableEq

/-- Python exceptions relevant to the handlers: `werkzeug.exceptions.BadRequest`
raised by `request.get_json()` on a missing or malformed body, `psycopg2.Error`
from the database driver, and any other exception. -/
inductive PyExn where
  | badRequest
  | dbError (msg : String)
  | other (msg : String)
deriving Repr, DecidableEq

/-- The message Flask's `BadRequest` renders under `str(e)`. -/
def flaskBadRequestMessage : String :=
  "400 Bad Request: The browser (or proxy) sent a request that this server could not understand."

/-- Models `str(e)` for a Python exception. -/
def exnMessage : PyExn → String
  | .badRequest => flaskBadRequestMessage
  | .dbError msg => msg
  | .other msg => msg

/-- A parsed create/update request body: `malformed` when the body is missing
or not well-formed JSON (so `request.get_json()` raises), otherwise a JSON
object whose `title` and `content` fields are absent or strings. -/
inductive ReqBody where
  | malformed
  | obj (title? : Option String) (content? : Option String)
deriving Repr, DecidableEq

/-- The outcome of a handler body (the code inside `try:`): either a response
or an uncaught exception, together with the side effects that happened. -/
structure BodyOut where
  outcome : Except PyExn HttpResponse
  state : DBState
  dbCalls : Nat
  committed : Bool
deriving Repr

/-- The observable result of a handler: its HTTP response, the database state
afterwards, how many SQL statements were executed, and whether the
transaction was committed. -/
structure HandlerResult where
  response : HttpResponse
  state : DBState
  dbCalls : Nat
  committed : Bool
deriving Repr, DecidableEq

/-- The `try: ... except Exception as e: return jsonify({'success': False,
'error': str(e)}), 500` wrapper shared by all four handlers. -/
def runHandler (b : BodyOut) : HandlerResult :=
  { response := match b.outcome with
      | .ok r => r
      | .error e => ⟨500, ApiBody.err (exnMessage e)⟩
  , state := b.state, dbCalls := b.dbCalls, committed := b.committed }

/-- The `ORDER BY created_at DESC` order of the list query (src/app.py
lines 109-113): `a` comes no later than `b` when `a.created_at` is at least
`b.created_at`. -/
def createdDescOrder (a b : Entry) : Prop :=
  b.created_at ≤ a.created_at

instance : DecidableRel createdDescOrder := fun a b =>
  inferInstanceAs (Decidable (b.created_at ≤ a.created_at))

instance : IsTotal Entry createdDescOrder :=
  ⟨fun a b => (Nat.le_total b.created_at a.created_at).imp id id⟩

instance : IsTrans Entry createdDescOrder :=
  ⟨fun _ _ _ hab hbc => Nat.le_trans hbc hab⟩

/-- Body of `get_entries` (src/app.py lines 103-124): one SELECT returning
all rows ordered by `created_at` descending, timestamps serialized.  A fault
fires at the SELECT. -/
def get_entriesBody (st : DBState) (fault : Option PyExn) : BodyOut :=
  match fault with
  | some e => ⟨.error e, st, 1, false⟩
  | none =>
      ⟨.ok ⟨200, ApiBody.entries
          ((st.rows.insertionSort createdDescOrder).map serializeEntry)⟩,
        st, 1, false⟩

/-- Handler for `GET /api/entries` (src/app.py lines 100-126). -/
def get_entries (st : DBState) (fault : Option PyExn) : HandlerResult :=
  runHandler (get_entriesBody st fault)

/-- The ASCII whitespace characters Python's `str.strip()` removes
(space, tab, newline, carriage return, vertical tab, form feed). -/
def isPySpace (c : Char) : Bool :=
  c = ' ' || c = '\t' || c = '\n' || c = '\r' || c = Char.ofNat 11 || c = Char.ofNat 12

/-- Python's `str.strip()`: remove leading and trailing whitespace. -/
def pyStrip (s : String) : String :=
  ⟨((s.data.dropWhile isPySpace).reverse.dropWhile isPySpace).reverse⟩

/-- Models `data.get('title', '').strip()` and `data.get('content', '').strip()`
(src/app.py lines 133-134, 166-167). -/
def stripField (v : Option String) : String :=
  pyStrip (v.getD "")

/-- Body of `create_entry` (src/app.py lines 131-157): parse JSON (raises
`BadRequest` on a malformed body), validate the stripped fields, then one
INSERT with database-default timestamps, RETURNING the row, and commit.
A fault fires at the INSERT. -/
def create_entryBody (st : DBState) (now : Nat) (body : ReqBody)
    (fault : Option PyExn) : BodyOut :=
  match body with
  | .malformed => ⟨.error .badRequest, st, 0, false⟩
  | .obj t? c? =>
      let title := stripField t?
      let content := stripField c?
      if title = "" ∨ content = "" then
        ⟨.ok ⟨400, ApiBody.err "Title and content are required"⟩, st, 0, false⟩
      else
        match fault with
        | some e => ⟨.error e, st, 1, false⟩
        | none =>
            let e : Entry := ⟨st.nextId, title, content, now, now⟩
            ⟨.ok ⟨201, ApiBody.entry (serializeEntry e)⟩,
              ⟨st.rows ++ [e], st.nextId + 1⟩, 1, true⟩

/-- Handler for `POST /api/entries` (src/app.py lines 128-159). -/
def create_entry (st : DBState) (now : Nat) (body : ReqBody)
    (fault : Option PyExn) : HandlerResult :=
  runHandler (create_entryBody st now body fault)

/-- The row update the UPDATE statement applies to a matching row
(src/app.py lines 177-182). -/
def applyUpdate (title content : String) (now : Nat) (e : Entry) : Entry :=
  { e with title := title, content := content, updated_at := now }

/-- Body of `update_entry` (src/app.py lines 164-196): parse and validate as
in create, then one UPDATE ... WHERE id = %s RETURNING the row; `fetchone()`
empty means not found (404, no commit), otherwise serialize and commit.
A fault fires at the UPDATE. -/
def update_entryBody (st : DBState) (now : Nat) (entry_id : Nat)
    (body : ReqBody) (fault : Option PyExn) : BodyOut :=
  match body with
  | .malformed => ⟨.error .badRequest, st, 0, false⟩
  | .obj t? c? =>
      let title := stripField t?
      let content := stripField c?
      if title = "" ∨ content = "" then
        ⟨.ok ⟨400, ApiBody.err "Title and content are required"⟩, st, 0, false⟩
      else
        match fault with
        | some e => ⟨.error e, st, 1, false⟩
        | none =>
            match st.rows.find? (fun r => r.id = entry_id) with
            | none =>
                ⟨.ok ⟨404, ApiBody.err "Entry not found"⟩, st, 1, false⟩
            | some e =>
                let e' := applyUpdate title content now e
                ⟨.ok ⟨200, ApiBody.entry (serializeEntry e')⟩,
                  ⟨st.rows.map (fun r =>
                      if r.id = entry_id then applyUpdate title content now r
                      else r), st.nextId⟩, 1, true⟩

/-- Handler for `PUT /api/entries/<int:entry_id>` (src/app.py lines 161-198). -/
def update_entry (st : DBState) (now : Nat) (entry_id : Nat) (body : ReqBody)
    (fault : Option PyExn) : HandlerResult :=
  runHandler (update_entryBody st now entry_id body fault)

/-- Body of `delete_entry` (src/app.py lines 203-218): one DELETE ... WHERE
id = %s RETURNING id; `fetchone()` empty means not found (404, no commit),
otherwise commit.  A fault fires at the DELETE. -/
def delete_entryBody (st : DBState) (entry_id : Nat)
    (fault : Option PyExn) : BodyOut :=
  match fault with
  | some e => ⟨.error e, st, 1, false⟩
  | none =>
      if st.rows.any (fun r => r.id = entry_id) then
        ⟨.ok ⟨200, ApiBody.message "Entry deleted successfully"⟩,
          ⟨st.rows.filter (fun r => ¬ r.id = entry_id), st.nextId⟩, 1, true⟩
      else
        ⟨.ok ⟨404, ApiBody.err "Entry not found"⟩, st, 1, false⟩

/-- Handler for `DELETE /api/entries/<int:entry_id>` (src/app.py lines 200-220). -/
def delete_entry (st : DBState) (entry_id : Nat)
    (fault : Option PyExn) : HandlerResult :=
  runHandler (delete_entryBody st entry_id fault)

/-- Actions on a database connection observable from `get_db_connection`
(src/app.py lines 37-57). -/
inductive ConnAction where
  | getconn
  | connect
  | rollback
  | putconn
  | close
deriving Repr, DecidableEq

/-- How the code inside the `with get_db_connection() as conn:` block exits:
normally, with a `psycopg2.Error`, or with any other exception. -/
inductive ScopeBodyOutcome where
  | normal
  | dbError
  | otherError
deriving Repr, DecidableEq

/-- The trace of connection actions performed by one execution of the
`get_db_connection` context manager (src/app.py lines 37-57), and whether an
exception escapes the scope.  `pooled` is whether `connection_pool` is set;
`acquireOk` is whether acquiring the connection succeeds (when it raises,
`conn` is still `None`, so neither the rollback nor the release runs). -/
def get_db_connectionTrace (pooled : Bool) (acquireOk : Bool)
    (body : ScopeBodyOutcome) : List ConnAction × Bool :=
  if acquireOk = false then
    ([], true)
  else
    let acq := if pooled then [ConnAction.getconn] else [ConnAction.connect]
    let rel := if pooled then [ConnAction.putconn] else [ConnAction.close]
    match body with
    | .normal => (acq ++ rel, false)
    | .dbError => (acq ++ [ConnAction.rollback] ++ rel, true)
    | .otherError => (acq ++ rel, true)

/-- An environment: mapping from variable names to values.  `os.getenv k`
is `getenv env k`. -/
def getenv (env : List (String × String)) (k : String) : Option String :=
  (env.find? (fun p => p.1 = k)).map (fun p => p.2)

/-- Accumulate the value of a decimal numeral; `none` on a non-digit. -/
def parseDigits : List Char → Nat → Option Nat
  | [], acc => some acc
  | c :: cs, acc =>
      if c.isDigit then parseDigits cs (acc * 10 + (c.toNat - 48)) else none

/-- Models Python's `int(...)` on the strings the code feeds it (decimal
numerals); `none` when the string is not a numeral, in which case `int()`
raises at import time. -/
def parsePort (s : String) : Option Nat :=
  match s.data with
  | [] => none
  | cs => parseDigits cs 0

/-- The `DB_CONFIG` dictionary of `src/app.py` lines 12-18. -/
structure DbConfig where
  host : String
  port : Nat
  database : String
  user : String
  password : String
deriving Repr, DecidableEq

/-- The dictionary `DB_CONFIG` of `src/app.py` (lines 12-18) as a function of the process
environment; `none` when `int(os.getenv('DB_PORT', '5433'))` raises. -/
def appDB_CONFIG (env : List (String × String)) : Option DbConfig :=
  (parsePort ((getenv env "DB_PORT").getD "5433")).map (fun p =>
    { host := "localhost"
    , port := p
    , database := "journal_db"
    , user := (getenv env "DB_USER").getD "yugabyte"
    , password := (getenv env "DB_PASSWORD").getD "yugabyte" })

/-- The `DB_CONFIG` dictionary of `src/setup_db.py` lines 13-18 (no
`database` key; the setup script uses the separate constant `DB_NAME`). -/
structure SetupDbConfig where
  host : String
  port : Nat
  user : String
  password : String
deriving Repr, DecidableEq

/-- The dictionary `DB_CONFIG` of `src/setup_db.py` (lines 13-18) as a function of the
environment. -/
def setupDB_CONFIG (env : List (String × String)) : Option SetupDbConfig :=
  (parsePort ((getenv env "DB_PORT").getD "5433")).map (fun p =>
    { host := "localhost"
    , port := p
    , user := (getenv env "DB_USER").getD "yugabyte"
    , password := (getenv env "DB_PASSWORD").getD "yugabyte" })

/-- The constant `DB_NAME` of `src/setup_db.py` line 20. -/
def DB_NAME : String := "journal_db"

/-- The `entries` list of a response, empty for non-list bodies. -/
def responseEntries (r : HandlerResult) : List SerializedEntry :=
  match r.response.body with
  | .entries es => es
  | _ => []

/-- The response's `success` field agrees with the status code being 2xx. -/
def successMatches2xx (r : HandlerResult) : Prop :=
  r.response.body.success = true ↔ 200 ≤ r.response.status ∧ r.response.status < 300

theorem runHandler_error {b : BodyOut} {e : PyExn}
    (h : b.outcome = Except.error e) :
    (runHandler b).response = ⟨500, ApiBody.err (exnMessage e)⟩ := by
  simp [runHandler, h]

/-- C1: a Create or Update request whose stripped title or content is empty
(an absent field treated as empty) returns HTTP 400 with body
`{success: false, error: "Title and content are required"}`, makes no
database call, and leaves the database state unchanged. -/
theorem reject_empty_title_content (st : DBState) (now entry_id : Nat)
    (t? c? : Option String) (fault : Option PyExn)
    (h : stripField t? = "" ∨ stripField c? = "") :
    create_entry st now (ReqBody.obj t? c?) fault =
      ⟨⟨400, ApiBody.err "Title and content are required"⟩, st, 0, false⟩ ∧
    update_entry st now entry_id (ReqBody.obj t? c?) fault =
      ⟨⟨400, ApiBody.err "Title and content are required"⟩, st, 0, false⟩ := by
  constructor <;>
    simp [create_entry, update_entry, create_entryBody, update_entryBody,
      runHandler, h]

/-- Witness for C1: the concrete request `{"title": "   ", "content": "x"}`
is rejected with 400 and no database call. -/
theorem reject_empty_title_content_witness :
    create_entry ⟨[], 1⟩ 7 (ReqBody.obj (some "   ") (some "x")) none =
      ⟨⟨400, ApiBody.err "Title and content are required"⟩, ⟨[], 1⟩, 0, false⟩ ∧
    update_entry ⟨[], 1⟩ 7 3 (ReqBody.obj (some "   ") (some "x")) none =
      ⟨⟨400, ApiBody.err "Title and content are required"⟩, ⟨[], 1⟩, 0, false⟩ :=
  reject_empty_title_content ⟨[], 1⟩ 7 3 (some "   ") (some "x") none
    (Or.inl (by decide))

/-- C2 counterexample: a Create request whose body is missing or malformed
JSON does NOT return HTTP 400 — `request.get_json()` raises `BadRequest`,
the handler's catch-all converts it to HTTP 500. -/
theorem malformed_body_is_500_not_400 :
    (create_entry ⟨[], 1⟩ 0 ReqBody.malformed none).response.status = 500 ∧
    ¬ (create_entry ⟨[], 1⟩ 0 ReqBody.malformed none).response.status = 400 := by
  constructor <;> decide

/-- C2 amended: a Create or Update request whose body is missing or
malformed JSON returns HTTP 500 (not 400) with `success: false` and the
`BadRequest` message, with no database call attempted and no side effects. -/
theorem malformed_body_500_no_side_effects (st : DBState)
    (now entry_id : Nat) (fault : Option PyExn) :
    create_entry st now ReqBody.malformed fault =
      ⟨⟨500, ApiBody.err flaskBadRequestMessage⟩, st, 0, false⟩ ∧
    update_entry st now entry_id ReqBody.malformed fault =
      ⟨⟨500, ApiBody.err flaskBadRequestMessage⟩, st, 0, false⟩ := by
  constructor <;> rfl

/-- C3: an Update request with a valid body, or a Delete request, whose id
matches no stored row returns HTTP 404 with body
`{success: false, error: "Entry not found"}`, does not commit, and leaves
the table unchanged. -/
theorem not_found_leaves_table_unchanged (st : DBState) (now entry_id : Nat)
    (t? c? : Option String)
    (hv : ¬ (stripField t? = "" ∨ stripField c? = ""))
    (hid : ∀ r ∈ st.rows, ¬ r.id = entry_id) :
    update_entry st now entry_id (ReqBody.obj t? c?) none =
      ⟨⟨404, ApiBody.err "Entry not found"⟩, st, 1, false⟩ ∧
    delete_entry st entry_id none =
      ⟨⟨404, ApiBody.err "Entry not found"⟩, st, 1, false⟩ := by
  have hfind : st.rows.find? (fun r => r.id = entry_id) = none := by
    simp only [List.find?_eq_none, decide_eq_true_eq]
    exact hid
  have hany : st.rows.any (fun r => r.id = entry_id) = false := by
    simp only [List.any_eq_false, decide_eq_true_eq]
    exact hid
  constructor
  · simp [update_entry, update_entryBody, runHandler, hv, hfind]
  · simp [delete_entry, delete_entryBody, runHandler, hany]

/-- Witness for C3: updating and deleting id 999 on a one-row table with
id 1 returns 404 and leaves the table as it was. -/
theorem not_found_leaves_table_unchanged_witness :
    update_entry ⟨[⟨1, "a", "b", 0, 0⟩], 2⟩ 5 999
        (ReqBody.obj (some "t") (some "c")) none =
      ⟨⟨404, ApiBody.err "Entry not found"⟩, ⟨[⟨1, "a", "b", 0, 0⟩], 2⟩, 1, false⟩ ∧
    delete_entry ⟨[⟨1, "a", "b", 0, 0⟩], 2⟩ 999 none =
      ⟨⟨404, ApiBody.err "Entry not found"⟩, ⟨[⟨1, "a", "b", 0, 0⟩], 2⟩, 1, false⟩ :=
  not_found_leaves_table_unchanged ⟨[⟨1, "a", "b", 0, 0⟩], 2⟩ 5 999
    (some "t") (some "c") (by decide) (by decide)

/-- C4: a successful Update of the stored row matching the id sets its
title, content and `updated_at` (to the current time) and leaves its id and
`created_at` unchanged; when the clock has advanced past the row's old
`updated_at`, `updated_at` strictly increases across the update. -/
theorem update_sets_fields_preserves_id_created (st : DBState)
    (now entry_id : Nat) (t? c? : Option String) (e : Entry)
    (hv : ¬ (stripField t? = "" ∨ stripField c? = ""))
    (hfind : st.rows.find? (fun r => r.id = entry_id) = some e)
    (hclock : e.updated_at < now) :
    update_entry st now entry_id (ReqBody.obj t? c?) none =
      ⟨⟨200, ApiBody.entry
          (serializeEntry (applyUpdate (stripField t?) (stripField c?) now e))⟩,
        ⟨st.rows.map (fun r =>
            if r.id = entry_id then applyUpdate (stripField t?) (stripField c?) now r
            else r), st.nextId⟩, 1, true⟩ ∧
    (applyUpdate (stripField t?) (stripField c?) now e).id = e.id ∧
    (applyUpdate (stripField t?) (stripField c?) now e).created_at = e.created_at ∧
    (applyUpdate (stripField t?) (stripField c?) now e).title = stripField t? ∧
    (applyUpdate (stripField t?) (stripField c?) now e).content = stripField c? ∧
    (applyUpdate (stripField t?) (stripField c?) now e).updated_at = now ∧
    e.updated_at < (applyUpdate (stripField t?) (stripField c?) now e).updated_at := by
  refine ⟨?_, rfl, rfl, rfl, rfl, rfl, hclock⟩
  simp [update_entry, update_entryBody, runHandler, hv, hfind]

/-- Witness for C4: updating the single row `(1, "a", "b", 0, 0)` at time 5
with `{"title": " t ", "content": "c"}`. -/
theorem update_sets_fields_preserves_id_created_witness :
    update_entry ⟨[⟨1, "a", "b", 0, 0⟩], 2⟩ 5 1
        (ReqBody.obj (some " t ") (some "c")) none =
      ⟨⟨200, ApiBody.entry (serializeEntry ⟨1, "t", "c", 0, 5⟩)⟩,
        ⟨[⟨1, "t", "c", 0, 5⟩], 2⟩, 1, true⟩ ∧
    (0 : Nat) < 5 := by
  have h := update_sets_fields_preserves_id_created ⟨[⟨1, "a", "b", 0, 0⟩], 2⟩
    5 1 (some " t ") (some "c") ⟨1, "a", "b", 0, 0⟩ (by decide) (by decide)
    (by decide)
  refine ⟨?_, by decide⟩
  have h1 := h.1
  simpa using h1

/-- C5: for a valid (title, content) pair (both stripped values non-empty),
Create returns HTTP 201 with the full inserted row, commits, and a
subsequent List on the resulting state includes an entry with the stripped
title and content whose `created_at` equals `updated_at`. -/
theorem create_then_list_includes_row (st : DBState) (now : Nat)
    (t c : String) (ht : ¬ pyStrip t = "") (hc : ¬ pyStrip c = "") :
    create_entry st now (ReqBody.obj (some t) (some c)) none =
      ⟨⟨201, ApiBody.entry
          (serializeEntry ⟨st.nextId, pyStrip t, pyStrip c, now, now⟩)⟩,
        ⟨st.rows ++ [⟨st.nextId, pyStrip t, pyStrip c, now, now⟩],
          st.nextId + 1⟩, 1, true⟩ ∧
    (⟨st.nextId, pyStrip t, pyStrip c, now, now⟩ : Entry).created_at =
      (⟨st.nextId, pyStrip t, pyStrip c, now, now⟩ : Entry).updated_at ∧
    serializeEntry ⟨st.nextId, pyStrip t, pyStrip c, now, now⟩ ∈
      responseEntries (get_entries
        (create_entry st now (ReqBody.obj (some t) (some c)) none).state none) := by
  have hcreate : create_entry st now (ReqBody.obj (some t) (some c)) none =
      ⟨⟨201, ApiBody.entry
          (serializeEntry ⟨st.nextId, pyStrip t, pyStrip c, now, now⟩)⟩,
        ⟨st.rows ++ [⟨st.nextId, pyStrip t, pyStrip c, now, now⟩],
          st.nextId + 1⟩, 1, true⟩ := by
    simp [create_entry, create_entryBody, runHandler, stripField, ht, hc]
  refine ⟨hcreate, rfl, ?_⟩
  rw [hcreate]
  simp only [get_entries, get_entriesBody, runHandler, responseEntries]
  refine List.mem_map_of_mem serializeEntry ?_
  rw [List.mem_insertionSort]
  simp

/-- Witness for C5: creating `{"title": "Day 1", "content": "Hello"}` on the
empty table. -/
theorem create_then_list_includes_row_witness :
    create_entry ⟨[], 1⟩ 3 (ReqBody.obj (some "Day 1") (some "Hello")) none =
      ⟨⟨201, ApiBody.entry (serializeEntry ⟨1, "Day 1", "Hello", 3, 3⟩)⟩,
        ⟨[⟨1, "Day 1", "Hello", 3, 3⟩], 2⟩, 1, true⟩ ∧
    serializeEntry ⟨1, "Day 1", "Hello", 3, 3⟩ ∈
      responseEntries (get_entries
        (create_entry ⟨[], 1⟩ 3 (ReqBody.obj (some "Day 1") (some "Hello")) none).state
        none) := by
  have h := create_then_list_includes_row ⟨[], 1⟩ 3 "Day 1" "Hello"
    (by decide) (by decide)
  exact ⟨by simpa using h.1, h.2.2⟩

/-- C6: for every database state (hence any insertion order), List returns
HTTP 200 with `success: true` and an `entries` array holding exactly the
stored rows (a permutation of them) sorted by `created_at` descending, each
with timestamps serialized through `isoformat`; on an empty table it returns
the empty array. -/
theorem list_returns_all_rows_sorted_desc (st : DBState) (n : Nat) :
    (∃ p : List Entry, p.Perm st.rows ∧ p.Sorted createdDescOrder ∧
      get_entries st none =
        ⟨⟨200, ApiBody.entries (p.map serializeEntry)⟩, st, 1, false⟩) ∧
    (get_entries st none).response.body.success = true ∧
    get_entries ⟨[], n⟩ none =
      ⟨⟨200, ApiBody.entries []⟩, ⟨[], n⟩, 1, false⟩ := by
  refine ⟨⟨st.rows.insertionSort createdDescOrder,
      List.perm_insertionSort createdDescOrder st.rows,
      List.sorted_insertionSort createdDescOrder st.rows, rfl⟩, rfl, rfl⟩

/-- C7: on every execution of the `get_db_connection` scope in which a
connection was acquired, the connection is released on every exit path
(normal return, database error, or any other exception): in pooled mode it
is returned via `putconn` and never closed, in ad-hoc mode it is closed; and
on a `psycopg2.Error` inside the scope the trace is exactly acquire,
rollback, release — the rollback precedes the release. -/
theorem connection_released_every_exit (pooled acquireOk : Bool)
    (body : ScopeBodyOutcome) (h : acquireOk = true) :
    (pooled = true →
      ConnAction.putconn ∈ (get_db_connectionTrace pooled acquireOk body).1 ∧
      ConnAction.close ∉ (get_db_connectionTrace pooled acquireOk body).1) ∧
    (pooled = false →
      ConnAction.close ∈ (get_db_connectionTrace pooled acquireOk body).1) ∧
    (body = ScopeBodyOutcome.dbError →
      (get_db_connectionTrace pooled acquireOk body).1 =
        (if pooled then [ConnAction.getconn] else [ConnAction.connect]) ++
          [ConnAction.rollback] ++
          (if pooled then [ConnAction.putconn] else [ConnAction.close])) := by
  subst h
  cases pooled <;> cases body <;> decide

/-- Witness for C7: the pooled scope with a database error inside rolls back
and returns the connection to the pool. -/
theorem connection_released_every_exit_witness :
    (ConnAction.putconn ∈
        (get_db_connectionTrace true true ScopeBodyOutcome.dbError).1 ∧
      ConnAction.close ∉
        (get_db_connectionTrace true true ScopeBodyOutcome.dbError).1) ∧
    (get_db_connectionTrace true true ScopeBodyOutcome.dbError).1 =
      [ConnAction.getconn, ConnAction.rollback, ConnAction.putconn] := by
  have h := connection_released_every_exit true true ScopeBodyOutcome.dbError rfl
  exact ⟨h.1 rfl, by simpa using h.2.2 rfl⟩

/-- C8 counterexample: the database host is NOT overridable through the
environment — with the host environment variable set to `db.example.com`,
`DB_CONFIG['host']` is still the hard-coded `localhost`. -/
theorem host_env_var_ignored :
    (appDB_CONFIG [("DB_HOST", "db.example.com")]).map DbConfig.host =
      some "localhost" ∧
    ¬ (appDB_CONFIG [("DB_HOST", "db.example.com")]).map DbConfig.host =
      some "db.example.com" := by
  constructor <;> decide

/-- C8 amended: port, user and password are overridable via `DB_PORT`
(default 5433), `DB_USER` and `DB_PASSWORD` (defaults `yugabyte`); the
database name is fixed to `journal_db` and the host is fixed to `localhost`
regardless of the environment, in both `src/app.py` and `src/setup_db.py`. -/
theorem db_config_from_env (env : List (String × String)) (p : Nat)
    (hp : parsePort ((getenv env "DB_PORT").getD "5433") = some p) :
    appDB_CONFIG env = some
      { host := "localhost", port := p, database := "journal_db"
      , user := (getenv env "DB_USER").getD "yugabyte"
      , password := (getenv env "DB_PASSWORD").getD "yugabyte" } ∧
    setupDB_CONFIG env = some
      { host := "localhost", port := p
      , user := (getenv env "DB_USER").getD "yugabyte"
      , password := (getenv env "DB_PASSWORD").getD "yugabyte" } ∧
    DB_NAME = "journal_db" := by
  refine ⟨?_, ?_, rfl⟩ <;> simp [appDB_CONFIG, setupDB_CONFIG, hp]

/-- Witness for C8: in the empty environment the configuration is
`localhost:5433`, user and password `yugabyte`, database `journal_db`. -/
theorem db_config_from_env_witness :
    appDB_CONFIG [] = some
      { host := "localhost", port := 5433, database := "journal_db"
      , user := "yugabyte", password := "yugabyte" } ∧
    setupDB_CONFIG [] = some
      { host := "localhost", port := 5433
      , user := "yugabyte", password := "yugabyte" } := by
  have h := db_config_from_env [] 5433 (by decide)
  exact ⟨by simpa using h.1, by simpa using h.2.1⟩

/-- C9: for every request to any of the four API endpoints — across all
database states, request bodies and injected faults — the JSON body's
`success` field is `true` exactly when the HTTP status is 2xx; every 400,
404 and 500 response carries `success: false`. -/
theorem success_true_iff_status_2xx (st : DBState) (now entry_id : Nat)
    (body : ReqBody) (fault : Option PyExn) :
    successMatches2xx (get_entries st fault) ∧
    successMatches2xx (create_entry st now body fault) ∧
    successMatches2xx (update_entry st now entry_id body fault) ∧
    successMatches2xx (delete_entry st entry_id fault) := by
  refine ⟨?_, ?_, ?_, ?_⟩
  · rcases fault with _ | e <;>
      simp [successMatches2xx, get_entries, get_entriesBody, runHandler,
        ApiBody.success]
  · rcases body with _ | ⟨t?, c?⟩
    · rcases fault with _ | e <;>
        simp [successMatches2xx, create_entry, create_entryBody, runHandler,
          ApiBody.success]
    · by_cases hv : stripField t? = "" ∨ stripField c? = ""
      · simp [successMatches2xx, create_entry, create_entryBody, runHandler,
          ApiBody.success, hv]
      · rcases fault with _ | e <;>
          simp [successMatches2xx, create_entry, create_entryBody, runHandler,
            ApiBody.success, hv]
  · rcases body with _ | ⟨t?, c?⟩
    · rcases fault with _ | e <;>
        simp [successMatches2xx, update_entry, update_entryBody, runHandler,
          ApiBody.success]
    · by_cases hv : stripField t? = "" ∨ stripField c? = ""
      · simp [successMatches2xx, update_entry, update_entryBody, runHandler,
          ApiBody.success, hv]
      · rcases fault with _ | e
        · cases hf : st.rows.find? (fun r => r.id = entry_id) <;>
            simp [successMatches2xx, update_entry, update_entryBody,
              runHandler, ApiBody.success, hv, hf]
        · simp [successMatches2xx, update_entry, update_entryBody, runHandler,
            ApiBody.success, hv]
  · rcases fault with _ | e
    · cases ha : st.rows.any (fun r => r.id = entry_id) <;>
        simp [successMatches2xx, delete_entry, delete_entryBody, runHandler,
          ApiBody.success, ha]
    · simp [successMatches2xx, delete_entry, delete_entryBody, runHandler,
        ApiBody.success]

/-- C10: every exception raised inside a handler body — a `BadRequest` from
parsing, a database error, or any other exception — is caught by the
handler's catch-all and converted to an HTTP 500 response with
`{success: false, error: str(e)}`; no handler propagates an exception. -/
theorem handlers_convert_exceptions_to_500 (st : DBState)
    (now entry_id : Nat) (body : ReqBody) (fault : Option PyExn) (e : PyExn) :
    ((get_entriesBody st fault).outcome = Except.error e →
      (get_entries st fault).response = ⟨500, ApiBody.err (exnMessage e)⟩) ∧
    ((create_entryBody st now body fault).outcome = Except.error e →
      (create_entry st now body fault).response =
        ⟨500, ApiBody.err (exnMessage e)⟩) ∧
    ((update_entryBody st now entry_id body fault).outcome = Except.error e →
      (update_entry st now entry_id body fault).response =
        ⟨500, ApiBody.err (exnMessage e)⟩) ∧
    ((delete_entryBody st entry_id fault).outcome = Except.error e →
      (delete_entry st entry_id fault).response =
        ⟨500, ApiBody.err (exnMessage e)⟩) :=
  ⟨fun h => runHandler_error h, fun h => runHandler_error h,
    fun h => runHandler_error h, fun h => runHandler_error h⟩

/-- Witness for C10: the `BadRequest` raised while parsing a malformed
Create body surfaces as HTTP 500 with the exception's message. -/
theorem handlers_convert_exceptions_to_500_witness :
    (create_entryBody ⟨[], 1⟩ 0 ReqBody.malformed none).outcome =
      Except.error PyExn.badRequest ∧
    (create_entry ⟨[], 1⟩ 0 ReqBody.malformed none).response =
      ⟨500, ApiBody.err (exnMessage PyExn.badRequest)⟩ :=
  ⟨rfl, (handlers_convert_exceptions_to_500 ⟨[], 1⟩ 0 0 ReqBody.malformed
    none PyExn.badRequest).2.1 rfl⟩
